import Mathlib

/-!
Shallow embedding of `dataiku_gitops_action.py`.

The script promotes a project bundle through two Dataiku infrastructures
(staging, then production).  The remote Deployment Client (the `dataikuapi`
library) is an external collaborator; it is modelled here as a small state
machine over `DSSState`, following the interface contract of the spec
(section 6): bundle listing fails when the deployer has no record of the
project, export fails with an "already exists"-style message when the
artifact already exists at the source, deployment creation fails when the
deployment identifier is already taken.  Transient remote failures
(publish, settings save, create, activation) are injected through `Faults`.

Every remote call attempted by a run is recorded in an `Op` trace, so that
theorems can speak about which calls were or were not made.

A key fact of the source is that `main` calls `sys.exit` although `sys` is
never imported: each `sys.exit(n)` raises `NameError`, which the catch-all
handler catches, after which the handler raises `NameError` again from its
own `sys.exit(1)`; the interpreter then terminates with exit status 1.
The model reproduces this faithfully (`sysExitErr`, `mainBody`, `mainRun`).
-/

/-- Leading-segment test on character lists: `charsLead p l` is true when
`p` occurs at the very start of `l`. -/
def charsLead : List Char → List Char → Bool
  | [], _ => true
  | _ :: _, [] => false
  | a :: as, b :: bs => a == b && charsLead as bs

/-- Substring occurrence on character lists. -/
def charsSub : List Char → List Char → Bool
  | pat, [] => charsLead pat []
  | pat, c :: rest => charsLead pat (c :: rest) || charsSub pat rest

/-- Substring test on strings; models the Python `"already exists" in str(e)`
membership test. -/
def hasSub (pat s : String) : Bool :=
  charsSub pat.data s.data

/-- Source `generate_bundle_id`: `f"bundle_{commit_id}"`. -/
def generate_bundle_id (commit_id : String) : String :=
  "bundle_" ++ commit_id

/-- Source line 130: `deployment_id = f"deploy_{DATAIKU_PROJECT_KEY}_{infra_id}"`. -/
def deploymentIdFor (projectKey infraId : String) : String :=
  "deploy_" ++ projectKey ++ "_" ++ infraId

/-- Python truthiness of an optional environment string: `not url` is true when
the variable is unset (`None`) or empty. -/
def falsyStr : Option String → Bool
  | none => true
  | some s => s.isEmpty

/-- Source `get_client`: returns `None` when either the url or the token is
falsy, otherwise a client handle (the handle itself carries no data in the
model). -/
def get_client (url token : Option String) : Option Unit :=
  if falsyStr url || falsyStr token then none else some ()

/-- A deployment object in the Project Deployer: a persistent binding of a
deployment identifier to a project, an infrastructure and a bundle. -/
structure Deployment where
  deploymentId : String
  projectKey : String
  infraId : String
  bundleId : String
  deriving Repr, DecidableEq

/-- Remote state of the Dataiku instances relevant to the script: whether the
deployer has a record of the project, the bundles known to the deployer, the
bundles existing at the source (Design) project, and the deployments. -/
structure DSSState where
  deployerProjectExists : Bool
  deployerBundles : List String
  designBundles : List String
  deployments : List Deployment
  deriving Repr, DecidableEq

/-- Transient failures injected into the remote operations of one `deploy`
call: an export failure with a given message, a publish failure, a failure of
the settings fetch/save sub-block, a deployment-creation failure, and an
activation failure. -/
structure Faults where
  exportFault : Option String
  publishFails : Bool
  saveFails : Bool
  createFails : Bool
  activationFails : Bool
  deriving Repr, DecidableEq

/-- The fault-free environment. -/
def noFaults : Faults :=
  ⟨none, false, false, false, false⟩

/-- Remote calls a run can attempt, recorded in order. -/
inductive Op where
  | listBundles (projectKey : String)
  | exportBundle (bundleId : String)
  | publishBundle (bundleId : String)
  | getDeployment (deploymentId : String)
  | saveSettings (deploymentId : String) (bundleId : String)
  | createDeployment (deploymentId : String) (projectKey : String)
      (infraId : String) (bundleId : String)
  | activate (deploymentId : String)
  deriving Repr, DecidableEq

/-- Deployment Client: list the bundles the deployer knows for the project;
fails when the deployer has no record of the project. -/
def listBundles (s : DSSState) : Except String (List String) :=
  if s.deployerProjectExists then .ok s.deployerBundles
  else .error "project not found in deployer"

/-- Deployment Client: export a bundle from the source project; fails with an
"already exists"-style message when the artifact already exists at the source,
or with the injected fault message. -/
def exportBundle (f : Faults) (s : DSSState) (bid : String) :
    Except String DSSState :=
  match f.exportFault with
  | some m => .error m
  | none =>
    if s.designBundles.contains bid then
      .error ("bundle " ++ bid ++ " already exists")
    else
      .ok { s with designBundles := bid :: s.designBundles }

/-- Deployment Client: publish a bundle to the deployer; on success the
deployer gains a record of the project and of the bundle. -/
def publishBundle (f : Faults) (s : DSSState) (bid : String) :
    Except String DSSState :=
  if f.publishFails then .error "publish failed"
  else
    .ok { s with deployerProjectExists := true,
                 deployerBundles := bid :: s.deployerBundles }

/-- Deployment Client: fetch a deployment by identifier; fails when absent. -/
def getDeployment (s : DSSState) (did : String) : Except String Deployment :=
  match s.deployments.find? (fun d => d.deploymentId == did) with
  | some d => .ok d
  | none => .error ("deployment " ++ did ++ " not found")

/-- Rebinding applied by a saved settings update: the deployment with the
given identifier gets the new bundle, every other deployment is untouched. -/
def updBundle (did bid : String) (d : Deployment) : Deployment :=
  if d.deploymentId == did then { d with bundleId := bid } else d

/-- Deployment Client: set the bound bundle of the deployment and save its
settings (the `get_settings` / raw update / `save` sub-block of the source). -/
def saveSettings (f : Faults) (s : DSSState) (did bid : String) :
    Except String DSSState :=
  if f.saveFails then .error "save failed"
  else .ok { s with deployments := s.deployments.map (updBundle did bid) }

/-- Deployment Client: create a deployment; fails when the identifier is
already taken (the deployer keeps at most one deployment per identifier) or
with the injected fault. -/
def createDeployment (f : Faults) (s : DSSState)
    (did pk iid bid : String) : Except String DSSState :=
  if f.createFails then .error "create failed"
  else if s.deployments.any (fun d => d.deploymentId == did) then
    .error ("deployment " ++ did ++ " already exists")
  else
    .ok { s with deployments :=
      { deploymentId := did, projectKey := pk, infraId := iid, bundleId := bid }
        :: s.deployments }

/-- Source lines 95-106: list the deployer bundles and look for `bid`; the
bare `except` turns any lookup failure into "bundle absent". -/
def bundleExistsCheck (bid : String) (s : DSSState) : Bool :=
  match listBundles s with
  | .ok bs => bs.contains bid
  | .error _ => false

/-- Source lines 111-125: export the bundle, swallowing only an
"already exists"-style failure, then publish it to the deployer. -/
def exportPublish (f : Faults) (bid : String) (s : DSSState) :
    List Op × Except String DSSState :=
  match exportBundle f s bid with
  | .ok s1 =>
    match publishBundle f s1 bid with
    | .ok s2 => ([Op.exportBundle bid, Op.publishBundle bid], .ok s2)
    | .error m => ([Op.exportBundle bid, Op.publishBundle bid], .error m)
  | .error m =>
    if hasSub "already exists" m then
      match publishBundle f s bid with
      | .ok s2 => ([Op.exportBundle bid, Op.publishBundle bid], .ok s2)
      | .error m2 => ([Op.exportBundle bid, Op.publishBundle bid], .error m2)
    else
      ([Op.exportBundle bid], .error m)

/-- Source step 1 (lines 92-125): the bundle existence check followed, when
the bundle is absent, by export and publish. -/
def bundleStep (f : Faults) (pk bid : String) (s : DSSState) :
    List Op × Except String DSSState :=
  if bundleExistsCheck bid s then
    ([Op.listBundles pk], .ok s)
  else
    (Op.listBundles pk :: (exportPublish f bid s).1, (exportPublish f bid s).2)

/-- Source step 2 (lines 130-150): fetch the deployment and update its bound
bundle; the bare `except` around the whole fetch-and-update block means any
failure in it (missing deployment, or a failed settings save) falls through to
`create_deployment`. -/
def bindStep (f : Faults) (pk iid bid : String) (s : DSSState) :
    List Op × Except String DSSState :=
  match getDeployment s (deploymentIdFor pk iid) with
  | .ok _ =>
    match saveSettings f s (deploymentIdFor pk iid) bid with
    | .ok s2 =>
      ([Op.getDeployment (deploymentIdFor pk iid),
        Op.saveSettings (deploymentIdFor pk iid) bid], .ok s2)
    | .error _ =>
      ([Op.getDeployment (deploymentIdFor pk iid),
        Op.saveSettings (deploymentIdFor pk iid) bid,
        Op.createDeployment (deploymentIdFor pk iid) pk iid bid],
       createDeployment f s (deploymentIdFor pk iid) pk iid bid)
  | .error _ =>
    ([Op.getDeployment (deploymentIdFor pk iid),
      Op.createDeployment (deploymentIdFor pk iid) pk iid bid],
     createDeployment f s (deploymentIdFor pk iid) pk iid bid)

/-- Source step 3 (lines 152-156): start the activation update and await its
terminal result. -/
def activateStep (f : Faults) (did : String) (s : DSSState) :
    List Op × Except String DSSState :=
  if f.activationFails then ([Op.activate did], .error "activation failed")
  else ([Op.activate did], .ok s)

/-- Outcome of one `deploy` call: the bundle identifier it computed, the trace
of remote calls it attempted, and the final result. -/
structure DeployResult where
  bundleId : String
  ops : List Op
  result : Except String DSSState
  deriving Repr

/-- The three reconciliation steps of `deploy` in sequence, accumulating the
trace; a failing step short-circuits the rest. -/
def deploySteps (pk iid bid : String) (f : Faults) (s : DSSState) :
    List Op × Except String DSSState :=
  match (bundleStep f pk bid s).2 with
  | .error m => ((bundleStep f pk bid s).1, .error m)
  | .ok s1 =>
    match (bindStep f pk iid bid s1).2 with
    | .error m => ((bundleStep f pk bid s).1 ++ (bindStep f pk iid bid s1).1, .error m)
    | .ok s2 =>
      ((bundleStep f pk bid s).1 ++ (bindStep f pk iid bid s1).1
         ++ (activateStep f (deploymentIdFor pk iid) s2).1,
       (activateStep f (deploymentIdFor pk iid) s2).2)

/-- Body of the `try` block of `deploy` (source lines 86-156). -/
def deployBody (pk iid sha : String) (f : Faults) (s : DSSState) : DeployResult :=
  ⟨generate_bundle_id sha,
   (deploySteps pk iid (generate_bundle_id sha) f s).1,
   (deploySteps pk iid (generate_bundle_id sha) f s).2⟩

/-- The `except` clause of `deploy` (source lines 158-160): print a
diagnostic and `raise e` — the caught exception is re-raised unchanged. -/
def reraise (r : DeployResult) : DeployResult :=
  match r.result with
  | .ok s => ⟨r.bundleId, r.ops, .ok s⟩
  | .error m => ⟨r.bundleId, r.ops, .error m⟩

/-- Source `deploy(infra_id)`.  `clientDev` is the module-level `client_dev`;
when it is `None`, the attribute access `client_dev.get_projectdeployer()`
raises before any remote call is attempted (the bundle identifier is computed
just before, on lines 87-88).  `sha` is the value returned by the
`get_git_sha()` call this run makes. -/
def deploy (clientDev : Option Unit) (pk iid sha : String) (f : Faults)
    (s : DSSState) : DeployResult :=
  let bid := generate_bundle_id sha
  match clientDev with
  | none =>
    ⟨bid, [],
     .error "AttributeError: NoneType object has no attribute get_projectdeployer"⟩
  | some _ => reraise (deployBody pk iid sha f s)

/-- The exception raised by every `sys.exit(n)` in `main`: the module never
imports `sys`, so the name lookup fails. -/
def sysExitErr : String :=
  "NameError: name sys is not defined"

/-- Result of one process run of `main`: the `deploy` calls made, tagged with
the infra identifier passed at the call site, and the process exit status. -/
structure MainResult where
  calls : List (String × DeployResult)
  exitCode : Nat
  deriving Repr

/-- Body of the `try` block of `main` (source lines 165-200).
`sha1` and `sha2` are the values the two `get_git_sha()` calls (one inside
each `deploy` call) return; `f1`/`f2` the faults of the two stages;
`stagingPass`/`prodPass` the outcomes of the two `run_tests` subprocess runs
(an external pass/fail contract).  The infra identifiers are the hardcoded
constants of source lines 22-23. -/
def mainBody (clientDev : Option Unit) (pk : String) (runTestsOnly : Bool)
    (sha1 sha2 : String) (f1 f2 : Faults) (stagingPass prodPass : Bool)
    (s0 : DSSState) : List (String × DeployResult) × Except String Unit :=
  match (deploy clientDev pk "staging" sha1 f1 s0).result with
  | .error m => ([("staging", deploy clientDev pk "staging" sha1 f1 s0)], .error m)
  | .ok s1 =>
    if !stagingPass then
      ([("staging", deploy clientDev pk "staging" sha1 f1 s0)], .error sysExitErr)
    else if runTestsOnly then
      ([("staging", deploy clientDev pk "staging" sha1 f1 s0)], .error sysExitErr)
    else
      match (deploy clientDev pk "prod" sha2 f2 s1).result with
      | .error m =>
        ([("staging", deploy clientDev pk "staging" sha1 f1 s0),
          ("prod", deploy clientDev pk "prod" sha2 f2 s1)], .error m)
      | .ok _ =>
        if prodPass then
          ([("staging", deploy clientDev pk "staging" sha1 f1 s0),
            ("prod", deploy clientDev pk "prod" sha2 f2 s1)], .ok ())
        else
          ([("staging", deploy clientDev pk "staging" sha1 f1 s0),
            ("prod", deploy clientDev pk "prod" sha2 f2 s1)], .error sysExitErr)

/-- Source `main` as observed by the operating system: when the `try` body
raises, the handler prints, and its own `sys.exit(1)` raises `NameError`,
which escapes `main` uncaught; the interpreter then exits with status 1.
A normal return from the body exits with status 0. -/
def mainRun (clientDev : Option Unit) (pk : String) (runTestsOnly : Bool)
    (sha1 sha2 : String) (f1 f2 : Faults) (stagingPass prodPass : Bool)
    (s0 : DSSState) : MainResult :=
  match mainBody clientDev pk runTestsOnly sha1 sha2 f1 f2 stagingPass prodPass s0 with
  | (cs, .ok _) => ⟨cs, 0⟩
  | (cs, .error _) => ⟨cs, 1⟩

/-- Trace predicate: the call is a `createDeployment` call. -/
def isCreateOp : Op → Bool
  | .createDeployment _ _ _ _ => true
  | _ => false

/-- Trace predicate: the call is an export or a publish call. -/
def isExportOrPublishOp : Op → Bool
  | .exportBundle _ => true
  | .publishBundle _ => true
  | _ => false

/-- The empty remote state: the deployer has no record of the project, no
bundles exist anywhere, no deployments exist. -/
def emptyDSS : DSSState :=
  ⟨false, [], [], []⟩

/-- A remote state as left by one successful first run: the deployer knows the
project and the bundle, the design node holds the bundle, and the staging
deployment is bound to it. -/
def exampleStateOne : DSSState :=
  ⟨true, ["bundle_abc1234"], ["bundle_abc1234"],
   [⟨"deploy_myproj_staging", "myproj", "staging", "bundle_abc1234"⟩]⟩

/-- A remote state in which everything needed for activation is in place:
bundle known everywhere, prod deployment exists and is bound. -/
def activationFailState : DSSState :=
  ⟨true, ["bundle_abc1234"], ["bundle_abc1234"],
   [⟨"deploy_myproj_prod", "myproj", "prod", "bundle_abc1234"⟩]⟩

/-- The environment in which the activation update reports failure. -/
def activationFault : Faults := ⟨none, false, false, false, true⟩

/-- Remote state after a successful publish of `bid`. -/
def afterPublish (bid : String) (s : DSSState) : DSSState :=
  { s with deployerProjectExists := true, deployerBundles := bid :: s.deployerBundles }

/-- An export fault whose message is of the "already exists" kind. -/
def conflictFault : Faults :=
  ⟨some "bundle bundle_abc1234 already exists", false, false, false, false⟩

/-- A remote state holding an existing staging deployment bound to an old
bundle, with the new bundle already known to the deployer. -/
def updateFaultState : DSSState :=
  ⟨true, ["bundle_abc1234"], ["bundle_abc1234"],
   [⟨"deploy_myproj_staging", "myproj", "staging", "bundle_old"⟩]⟩

/-- The environment in which the settings save raises. -/
def saveFault : Faults := ⟨none, false, true, false, false⟩

/-! Helper lemmas about the model. -/

lemma reraise_eq (r : DeployResult) : reraise r = r := by
  unfold reraise
  cases r with
  | mk b o res => cases res <;> rfl

lemma deploy_some_eq (pk iid sha : String) (f : Faults) (s : DSSState) :
    deploy (some ()) pk iid sha f s = deployBody pk iid sha f s := by
  unfold deploy
  exact reraise_eq _

lemma deployBody_bundleId (pk iid sha : String) (f : Faults) (s : DSSState) :
    (deployBody pk iid sha f s).bundleId = generate_bundle_id sha := rfl

lemma deploy_bundleId (c : Option Unit) (pk iid sha : String) (f : Faults)
    (s : DSSState) : (deploy c pk iid sha f s).bundleId = generate_bundle_id sha := by
  cases c with
  | none => rfl
  | some u =>
    cases u
    rw [deploy_some_eq]
    exact deployBody_bundleId pk iid sha f s

lemma deploy_none (pk iid sha : String) (f : Faults) (s : DSSState) :
    deploy none pk iid sha f s =
      ⟨generate_bundle_id sha, [],
       .error "AttributeError: NoneType object has no attribute get_projectdeployer"⟩ := rfl

lemma bundleExistsCheck_iff (bid : String) (s : DSSState) :
    bundleExistsCheck bid s = true ↔
      s.deployerProjectExists = true ∧ bid ∈ s.deployerBundles := by
  unfold bundleExistsCheck listBundles
  by_cases hp : s.deployerProjectExists <;> simp [hp]

lemma exportBundle_ok (f : Faults) (s : DSSState) (bid : String) (s2 : DSSState)
    (h : exportBundle f s bid = .ok s2) :
    s2.deployerProjectExists = s.deployerProjectExists ∧
    s2.deployerBundles = s.deployerBundles ∧
    s2.deployments = s.deployments := by
  unfold exportBundle at h
  split at h
  · exact absurd h (by simp)
  · split at h
    · exact absurd h (by simp)
    · injection h with h2
      subst h2
      exact ⟨rfl, rfl, rfl⟩

lemma publishBundle_ok (f : Faults) (s : DSSState) (bid : String) (s2 : DSSState)
    (h : publishBundle f s bid = .ok s2) :
    s2.deployerProjectExists = true ∧
    s2.deployerBundles = bid :: s.deployerBundles ∧
    s2.deployments = s.deployments := by
  unfold publishBundle at h
  split at h
  · exact absurd h (by simp)
  · injection h with h2
    subst h2
    exact ⟨rfl, rfl, rfl⟩

lemma exportPublish_ok (f : Faults) (bid : String) (s s2 : DSSState)
    (h : (exportPublish f bid s).2 = .ok s2) :
    s2.deployerProjectExists = true ∧
    bid ∈ s2.deployerBundles ∧
    s2.deployments = s.deployments := by
  unfold exportPublish at h
  split at h
  next s1 hexp =>
    split at h
    next s3 hpub =>
      injection h with h2
      subst h2
      obtain ⟨he1, he2, he3⟩ := exportBundle_ok f s bid s1 hexp
      obtain ⟨hp1, hp2, hp3⟩ := publishBundle_ok f s1 bid s3 hpub
      refine ⟨hp1, ?_, hp3.trans he3⟩
      rw [hp2]
      exact List.mem_cons_self _ _
    next m hpub => exact absurd h (by simp)
  next m hexp =>
    split at h
    · split at h
      next s3 hpub =>
        injection h with h2
        subst h2
        obtain ⟨hp1, hp2, hp3⟩ := publishBundle_ok f s bid s3 hpub
        refine ⟨hp1, ?_, hp3⟩
        rw [hp2]
        exact List.mem_cons_self _ _
      next m2 hpub => exact absurd h (by simp)
    · exact absurd h (by simp)

lemma bundleStep_ok (f : Faults) (pk bid : String) (s s1 : DSSState)
    (h : (bundleStep f pk bid s).2 = .ok s1) :
    s1.deployerProjectExists = true ∧
    bid ∈ s1.deployerBundles ∧
    s1.deployments = s.deployments := by
  unfold bundleStep at h
  split at h
  next hc =>
    injection h with h2
    subst h2
    obtain ⟨hp, hm⟩ := (bundleExistsCheck_iff bid _).mp hc
    exact ⟨hp, hm, rfl⟩
  next hc =>
    exact exportPublish_ok f bid s s1 h

lemma getDeployment_ok (s : DSSState) (did : String) (d : Deployment)
    (h : getDeployment s did = .ok d) :
    d ∈ s.deployments ∧ d.deploymentId = did := by
  unfold getDeployment at h
  split at h
  next d0 hf =>
    injection h with h2
    subst h2
    refine ⟨List.mem_of_find?_eq_some hf, ?_⟩
    have := List.find?_some hf
    simpa using this
  next hf => exact absurd h (by simp)

lemma getDeployment_error (s : DSSState) (did : String) (m : String)
    (h : getDeployment s did = .error m) :
    ∀ d ∈ s.deployments, d.deploymentId ≠ did := by
  unfold getDeployment at h
  split at h
  next d0 hf => exact absurd h (by simp)
  next hf =>
    intro d hd
    have := List.find?_eq_none.mp hf d hd
    simpa using this

lemma createDeployment_ok (f : Faults) (s : DSSState) (did pk iid bid : String)
    (s2 : DSSState) (h : createDeployment f s did pk iid bid = .ok s2) :
    f.createFails = false ∧
    (∀ d ∈ s.deployments, d.deploymentId ≠ did) ∧
    s2 = { s with deployments :=
      { deploymentId := did, projectKey := pk, infraId := iid, bundleId := bid }
        :: s.deployments } := by
  unfold createDeployment at h
  split at h
  · exact absurd h (by simp)
  next hcf =>
    split at h
    · exact absurd h (by simp)
    next hany =>
      injection h with h2
      refine ⟨by simpa using hcf, ?_, h2.symm⟩
      intro d hd hde
      exact absurd (List.any_eq_true.mpr ⟨d, hd, by simp [hde]⟩) hany

lemma updBundle_deploymentId (did bid : String) (d : Deployment) :
    (updBundle did bid d).deploymentId = d.deploymentId := by
  unfold updBundle
  split <;> rfl

lemma updBundle_of_eq (did bid : String) (d : Deployment)
    (h : d.deploymentId = did) : updBundle did bid d = { d with bundleId := bid } := by
  unfold updBundle
  simp [h]

lemma updBundle_of_ne (did bid : String) (d : Deployment)
    (h : d.deploymentId ≠ did) : updBundle did bid d = d := by
  unfold updBundle
  simp [h]

lemma map_updBundle_id (did bid : String) (l : List Deployment)
    (h : ∀ d ∈ l, d.deploymentId = did → d.bundleId = bid) :
    l.map (updBundle did bid) = l := by
  induction l with
  | nil => rfl
  | cons d t ih =>
    have hh : updBundle did bid d = d := by
      by_cases hd : d.deploymentId = did
      · have hb : d.bundleId = bid := h d (List.mem_cons_self d t) hd
        rw [updBundle_of_eq did bid d hd, ← hb]
      · exact updBundle_of_ne did bid d hd
    simp only [List.map_cons, hh]
    rw [ih (fun x hx hxid => h x (List.mem_cons_of_mem d hx) hxid)]

lemma saveSettings_ok (f : Faults) (s : DSSState) (did bid : String)
    (s2 : DSSState) (h : saveSettings f s did bid = .ok s2) :
    f.saveFails = false ∧
    s2 = { s with deployments := s.deployments.map (updBundle did bid) } := by
  unfold saveSettings at h
  split at h
  · exact absurd h (by simp)
  next hsf =>
    injection h with h2
    exact ⟨by simpa using hsf, h2.symm⟩

lemma bindStep_ok (f : Faults) (pk iid bid : String) (s s2 : DSSState)
    (h : (bindStep f pk iid bid s).2 = .ok s2) :
    s2.deployerProjectExists = s.deployerProjectExists ∧
    s2.deployerBundles = s.deployerBundles ∧
    (∃ d ∈ s2.deployments, d.deploymentId = deploymentIdFor pk iid) ∧
    (∀ d ∈ s2.deployments, d.deploymentId = deploymentIdFor pk iid →
      d.bundleId = bid) := by
  unfold bindStep at h
  split at h
  next d0 hget =>
    obtain ⟨hd0mem, hd0id⟩ := getDeployment_ok s (deploymentIdFor pk iid) d0 hget
    split at h
    next s3 hsave =>
      injection h with h2
      subst h2
      obtain ⟨hsf, hs3⟩ := saveSettings_ok f s (deploymentIdFor pk iid) bid s3 hsave
      subst hs3
      refine ⟨rfl, rfl, ?_, ?_⟩
      · refine ⟨updBundle (deploymentIdFor pk iid) bid d0, ?_, ?_⟩
        · exact List.mem_map_of_mem _ hd0mem
        · rw [updBundle_deploymentId]
          exact hd0id
      · intro d hd hdid
        obtain ⟨x, hx, hxd⟩ := List.mem_map.mp hd
        by_cases hxid : x.deploymentId = deploymentIdFor pk iid
        · rw [← hxd, updBundle_of_eq _ _ _ hxid]
        · rw [← hxd, updBundle_of_ne _ _ _ hxid] at hdid ⊢
          exact absurd hdid hxid
    next m hsave =>
      obtain ⟨hcf, hnone, hs2⟩ :=
        createDeployment_ok f s (deploymentIdFor pk iid) pk iid bid s2 h
      exact absurd hd0id (hnone d0 hd0mem)
  next m hget =>
    have hne := getDeployment_error s (deploymentIdFor pk iid) m hget
    obtain ⟨hcf, hnone, hs2⟩ :=
      createDeployment_ok f s (deploymentIdFor pk iid) pk iid bid s2 h
    subst hs2
    refine ⟨rfl, rfl, ?_, ?_⟩
    · exact ⟨_, List.mem_cons_self _ _, rfl⟩
    · intro d hd hdid
      rcases List.mem_cons.mp hd with hd | hd
      · rw [hd]
      · exact absurd hdid (hnone d hd)

lemma deploySteps_ok (pk iid bid : String) (f : Faults) (s sFin : DSSState)
    (h : (deploySteps pk iid bid f s).2 = .ok sFin) :
    ∃ sMid, (bundleStep f pk bid s).2 = .ok sMid ∧
      (bindStep f pk iid bid sMid).2 = .ok sFin ∧
      f.activationFails = false := by
  unfold deploySteps at h
  split at h
  next m heq1 => exact absurd h (by simp)
  next s1 heq1 =>
    split at h
    next m heq2 => exact absurd h (by simp)
    next s2 heq2 =>
      unfold activateStep at h
      split at h
      next hact => exact absurd h (by simp)
      next hact =>
        injection h with h3
        subst h3
        exact ⟨s1, heq1, heq2, by simpa using hact⟩

lemma deploy_rerun (pk iid sha : String) (s1 : DSSState)
    (hp : s1.deployerProjectExists = true)
    (hb : generate_bundle_id sha ∈ s1.deployerBundles)
    (hex : ∃ d ∈ s1.deployments, d.deploymentId = deploymentIdFor pk iid)
    (hall : ∀ d ∈ s1.deployments, d.deploymentId = deploymentIdFor pk iid →
      d.bundleId = generate_bundle_id sha) :
    deploy (some ()) pk iid sha noFaults s1 =
      ⟨generate_bundle_id sha,
       [Op.listBundles pk, Op.getDeployment (deploymentIdFor pk iid),
        Op.saveSettings (deploymentIdFor pk iid) (generate_bundle_id sha),
        Op.activate (deploymentIdFor pk iid)],
       .ok s1⟩ := by
  have hchk : bundleExistsCheck (generate_bundle_id sha) s1 = true :=
    (bundleExistsCheck_iff _ _).mpr ⟨hp, hb⟩
  have hbs : bundleStep noFaults pk (generate_bundle_id sha) s1 =
      ([Op.listBundles pk], .ok s1) := by
    unfold bundleStep
    rw [hchk]
    rfl
  obtain ⟨d0, hd0mem, hd0id⟩ := hex
  have hget : ∃ d1, getDeployment s1 (deploymentIdFor pk iid) = .ok d1 := by
    unfold getDeployment
    cases hf : s1.deployments.find? (fun d => d.deploymentId == deploymentIdFor pk iid) with
    | some d1 => exact ⟨d1, rfl⟩
    | none =>
      have := List.find?_eq_none.mp hf d0 hd0mem
      simp [hd0id] at this
  obtain ⟨d1, hget⟩ := hget
  have hsave : saveSettings noFaults s1 (deploymentIdFor pk iid)
      (generate_bundle_id sha) = .ok s1 := by
    show Except.ok
      { s1 with deployments :=
          s1.deployments.map (updBundle (deploymentIdFor pk iid) (generate_bundle_id sha)) } =
      Except.ok s1
    rw [map_updBundle_id _ _ _ hall]
  have hbind : bindStep noFaults pk iid (generate_bundle_id sha) s1 =
      ([Op.getDeployment (deploymentIdFor pk iid),
        Op.saveSettings (deploymentIdFor pk iid) (generate_bundle_id sha)],
       .ok s1) := by
    unfold bindStep
    rw [hget, hsave]
  rw [deploy_some_eq]
  unfold deployBody deploySteps
  rw [hbs]
  dsimp only
  rw [hbind]
  rfl

/-- C1: reconciliation is idempotent.  If a `deploy` call for
(project, infra, revision) succeeds with final remote state `s1`, then an
immediately repeated `deploy` call for the same triple, in a fault-free
environment, succeeds again, leaves the remote state exactly `s1`
(in particular the deployment's bound bundle is unchanged), and performs only
the bundle-exists and deployment-exists branches: its trace is exactly
listing, deployment fetch, settings save, activation — no export, no publish,
no `createDeployment`. -/
theorem reconcile_idempotent (c : Option Unit) (pk iid sha : String)
    (f : Faults) (s s1 : DSSState)
    (h : (deploy c pk iid sha f s).result = .ok s1) :
    deploy c pk iid sha noFaults s1 =
      ⟨generate_bundle_id sha,
       [Op.listBundles pk, Op.getDeployment (deploymentIdFor pk iid),
        Op.saveSettings (deploymentIdFor pk iid) (generate_bundle_id sha),
        Op.activate (deploymentIdFor pk iid)],
       .ok s1⟩ := by
  cases c with
  | none => exact absurd h (by simp [deploy_none])
  | some u =>
    cases u
    rw [deploy_some_eq] at h
    have h2 : (deploySteps pk iid (generate_bundle_id sha) f s).2 = .ok s1 := h
    obtain ⟨sMid, hbs, hbind, hact⟩ :=
      deploySteps_ok pk iid (generate_bundle_id sha) f s s1 h2
    obtain ⟨hp1, hb1, _⟩ := bundleStep_ok f pk (generate_bundle_id sha) s sMid hbs
    obtain ⟨hp2, hb2, hex2, hall2⟩ :=
      bindStep_ok f pk iid (generate_bundle_id sha) sMid s1 hbind
    exact deploy_rerun pk iid sha s1 (hp2.trans hp1) (hb2 ▸ hb1) hex2 hall2

lemma activateStep_ops (f : Faults) (did : String) (s : DSSState) :
    (activateStep f did s).1 = [Op.activate did] := by
  unfold activateStep
  split <;> rfl

lemma bundleStep_ops_cases (f : Faults) (pk bid : String) (s : DSSState) :
    (bundleStep f pk bid s).1 = [Op.listBundles pk] ∨
    (bundleStep f pk bid s).1 =
      [Op.listBundles pk, Op.exportBundle bid, Op.publishBundle bid] ∨
    (bundleStep f pk bid s).1 = [Op.listBundles pk, Op.exportBundle bid] := by
  unfold bundleStep exportPublish
  split
  · exact Or.inl rfl
  · split
    · split
      · exact Or.inr (Or.inl rfl)
      · exact Or.inr (Or.inl rfl)
    · split
      · split
        · exact Or.inr (Or.inl rfl)
        · exact Or.inr (Or.inl rfl)
      · exact Or.inr (Or.inr rfl)

lemma bindStep_ops_cases (f : Faults) (pk iid bid : String) (s : DSSState) :
    (bindStep f pk iid bid s).1 =
      [Op.getDeployment (deploymentIdFor pk iid),
       Op.saveSettings (deploymentIdFor pk iid) bid] ∨
    (bindStep f pk iid bid s).1 =
      [Op.getDeployment (deploymentIdFor pk iid),
       Op.saveSettings (deploymentIdFor pk iid) bid,
       Op.createDeployment (deploymentIdFor pk iid) pk iid bid] ∨
    (bindStep f pk iid bid s).1 =
      [Op.getDeployment (deploymentIdFor pk iid),
       Op.createDeployment (deploymentIdFor pk iid) pk iid bid] := by
  unfold bindStep
  split
  · split
    · exact Or.inl rfl
    · exact Or.inr (Or.inl rfl)
  · exact Or.inr (Or.inr rfl)

lemma deploySteps_ops_err (pk iid bid : String) (f : Faults) (s : DSSState)
    (m : String) (hb : (bundleStep f pk bid s).2 = .error m) :
    (deploySteps pk iid bid f s).1 = (bundleStep f pk bid s).1 ∧
    (deploySteps pk iid bid f s).2 = .error m := by
  unfold deploySteps
  rw [hb]
  exact ⟨rfl, rfl⟩

lemma deploySteps_ops_decomp (pk iid bid : String) (f : Faults)
    (s sMid : DSSState) (hb : (bundleStep f pk bid s).2 = .ok sMid) :
    (deploySteps pk iid bid f s).1 =
      (bundleStep f pk bid s).1 ++ (bindStep f pk iid bid sMid).1
        ++ [Op.activate (deploymentIdFor pk iid)] ∨
    (deploySteps pk iid bid f s).1 =
      (bundleStep f pk bid s).1 ++ (bindStep f pk iid bid sMid).1 := by
  unfold deploySteps
  rw [hb]
  dsimp only
  split
  · exact Or.inr rfl
  next s2 h2 =>
    left
    rw [activateStep_ops]

lemma deploy_ops_eq (pk iid sha : String) (f : Faults) (s : DSSState) :
    (deploy (some ()) pk iid sha f s).ops =
      (deploySteps pk iid (generate_bundle_id sha) f s).1 := by
  rw [deploy_some_eq]
  rfl

lemma deploy_result_eq (pk iid sha : String) (f : Faults) (s : DSSState) :
    (deploy (some ()) pk iid sha f s).result =
      (deploySteps pk iid (generate_bundle_id sha) f s).2 := by
  rw [deploy_some_eq]
  rfl

/-- Witness for `reconcile_idempotent`: a concrete first run from the empty
remote state succeeds and yields `exampleStateOne`; the theorem then gives the
second run's exact behaviour. -/
theorem reconcile_idempotent_witness :
    deploy (some ()) "myproj" "staging" "abc1234" noFaults exampleStateOne =
      ⟨generate_bundle_id "abc1234",
       [Op.listBundles "myproj",
        Op.getDeployment (deploymentIdFor "myproj" "staging"),
        Op.saveSettings (deploymentIdFor "myproj" "staging")
          (generate_bundle_id "abc1234"),
        Op.activate (deploymentIdFor "myproj" "staging")],
       .ok exampleStateOne⟩ :=
  reconcile_idempotent (some ()) "myproj" "staging" "abc1234" noFaults
    emptyDSS exampleStateOne rfl

/-- C10: the module-level dev client is the single client every remote
operation of `deploy` goes through; when either the dev instance url or the
dev API token is falsy, `get_client` returns `None`, and every `deploy` call —
whatever infra it targets — fails immediately with an attribute error on
`None`, before attempting a single remote operation (its trace is empty);
only the bundle identifier, computed just before the client access, exists. -/
theorem reconcile_requires_dev_client (url token : Option String)
    (pk iid sha : String) (f : Faults) (s : DSSState)
    (h : falsyStr url = true ∨ falsyStr token = true) :
    deploy (get_client url token) pk iid sha f s =
      ⟨generate_bundle_id sha, [],
       .error "AttributeError: NoneType object has no attribute get_projectdeployer"⟩ := by
  have hc : get_client url token = none := by
    unfold get_client
    rcases h with h | h <;> simp [h]
  rw [hc]
  rfl

theorem reconcile_requires_dev_client_witness :
    deploy (get_client none (some "token123")) "myproj" "prod" "abc1234"
        noFaults emptyDSS =
      ⟨generate_bundle_id "abc1234", [],
       .error "AttributeError: NoneType object has no attribute get_projectdeployer"⟩ :=
  reconcile_requires_dev_client none (some "token123") "myproj" "prod"
    "abc1234" noFaults emptyDSS (Or.inl rfl)

/-- C9 counterexample: the claim says a failure is wrapped and re-raised with
the target infra identifier attached.  In the code the handler is
`print; raise e`: deploying to infra `"prod"` with a failing activation makes
the caller receive exactly the raw activation error, which does not mention
`"prod"` anywhere — nothing was wrapped and no infra identifier was
attached. -/
theorem failure_not_wrapped_cex :
    (deploy (some ()) "myproj" "prod" "abc1234" activationFault
        activationFailState).result = .error "activation failed" ∧
    hasSub "prod" "activation failed" = false :=
  ⟨rfl, rfl⟩

/-- C9 amended: any failure during reconciliation is re-raised to the caller
unchanged — the `except` clause of `deploy` prints a diagnostic and re-raises
the same exception, so the call as a whole behaves exactly like its `try`
body: the caller receives the original error (no wrapper, no infra identifier
attached) and never receives a partial-success value. -/
theorem failure_reraised_unchanged (pk iid sha : String) (f : Faults)
    (s : DSSState) :
    deploy (some ()) pk iid sha f s = deployBody pk iid sha f s :=
  deploy_some_eq pk iid sha f s

/-- C2: observed process exit statuses.  Full success exits 0 and all fatal
failures exit non-zero (third conjunct: staging verification failure; fourth:
production verification failure after a successful production deployment).
But the second conjunct shows the verification-only path: with the early-exit
flag set and staging verification passing, the process exits 1, not 0 —
`sys` is never imported, so the intended `sys.exit(0)` raises `NameError`,
the catch-all handler's own `sys.exit(1)` raises `NameError` again, and the
interpreter terminates with status 1. -/
theorem exit_contract_eval :
    (mainRun (some ()) "myproj" false "abc1234" "abc1234" noFaults noFaults
        true true emptyDSS).exitCode = 0 ∧
    (mainRun (some ()) "myproj" true "abc1234" "abc1234" noFaults noFaults
        true true emptyDSS).exitCode = 1 ∧
    (mainRun (some ()) "myproj" false "abc1234" "abc1234" noFaults noFaults
        false true emptyDSS).exitCode = 1 ∧
    (mainRun (some ()) "myproj" false "abc1234" "abc1234" noFaults noFaults
        true false emptyDSS).exitCode = 1 :=
  ⟨rfl, rfl, rfl, rfl⟩

lemma countP_expub_bindStep (f : Faults) (pk iid bid : String) (s : DSSState) :
    (bindStep f pk iid bid s).1.countP isExportOrPublishOp = 0 := by
  rcases bindStep_ops_cases f pk iid bid s with h | h | h <;> rw [h] <;> rfl

lemma countP_create_bundleStep (f : Faults) (pk bid : String) (s : DSSState) :
    (bundleStep f pk bid s).1.countP isCreateOp = 0 := by
  rcases bundleStep_ops_cases f pk bid s with h | h | h <;> rw [h] <;> rfl

lemma bundleStep_of_check_true (f : Faults) (pk bid : String) (s : DSSState)
    (hc : bundleExistsCheck bid s = true) :
    bundleStep f pk bid s = ([Op.listBundles pk], .ok s) := by
  unfold bundleStep
  rw [hc]
  rfl

/-- C6: bundle-export skip.  Whenever the deployer's bundle listing for the
project succeeds and contains the computed bundle identifier, the `deploy`
call performs no export call and no publish call at all (the bundle step is a
no-op); this holds for any fault environment and also when the client is
`None` (in which case no call at all is made). -/
theorem bundle_export_skip (c : Option Unit) (pk iid sha : String)
    (f : Faults) (s : DSSState) (hp : s.deployerProjectExists = true)
    (hm : generate_bundle_id sha ∈ s.deployerBundles) :
    (deploy c pk iid sha f s).ops.countP isExportOrPublishOp = 0 := by
  cases c with
  | none => rfl
  | some u =>
    cases u
    rw [deploy_ops_eq]
    have hchk : bundleExistsCheck (generate_bundle_id sha) s = true :=
      (bundleExistsCheck_iff _ _).mpr ⟨hp, hm⟩
    have hbs := bundleStep_of_check_true f pk (generate_bundle_id sha) s hchk
    have hok : (bundleStep f pk (generate_bundle_id sha) s).2 = .ok s := by
      rw [hbs]
    rcases deploySteps_ops_decomp pk iid (generate_bundle_id sha) f s s hok
      with hd | hd <;> rw [hd, hbs] <;>
      simp only [List.countP_append, countP_expub_bindStep] <;> rfl

theorem bundle_export_skip_witness :
    (deploy (some ()) "myproj" "staging" "abc1234" noFaults
      exampleStateOne).ops.countP isExportOrPublishOp = 0 :=
  bundle_export_skip (some ()) "myproj" "staging" "abc1234" noFaults
    exampleStateOne rfl (by decide)

lemma exportPublish_ops_cases (f : Faults) (bid : String) (s : DSSState) :
    (exportPublish f bid s).1 = [Op.exportBundle bid, Op.publishBundle bid] ∨
    (exportPublish f bid s).1 = [Op.exportBundle bid] := by
  unfold exportPublish
  split
  · split
    · exact Or.inl rfl
    · exact Or.inl rfl
  · split
    · split
      · exact Or.inl rfl
      · exact Or.inl rfl
    · exact Or.inr rfl

lemma bundleStep_ops_of_check_false (f : Faults) (pk bid : String)
    (s : DSSState) (hc : bundleExistsCheck bid s = false) :
    (bundleStep f pk bid s).1 =
      Op.listBundles pk :: (exportPublish f bid s).1 := by
  unfold bundleStep
  rw [hc]
  rfl

/-- C8: expected-absence tolerance at the bundle-existence check.  When the
deployer has no record of the project, the bundle listing fails; the bare
`except` swallows the failure, the bundle is treated as absent, and the run
proceeds to the export branch — witnessed by the export call appearing in the
trace of the very same run, whatever the fault environment. -/
theorem listing_failure_tolerated (pk iid sha : String) (f : Faults)
    (s : DSSState) (hp : s.deployerProjectExists = false) :
    Op.exportBundle (generate_bundle_id sha) ∈
      (deploy (some ()) pk iid sha f s).ops := by
  rw [deploy_ops_eq]
  have hchk : bundleExistsCheck (generate_bundle_id sha) s = false := by
    unfold bundleExistsCheck listBundles
    simp [hp]
  have hb1 := bundleStep_ops_of_check_false f pk (generate_bundle_id sha) s hchk
  have hexp : Op.exportBundle (generate_bundle_id sha) ∈
      (exportPublish f (generate_bundle_id sha) s).1 := by
    rcases exportPublish_ops_cases f (generate_bundle_id sha) s with h | h <;>
      rw [h] <;> simp
  cases hres : (bundleStep f pk (generate_bundle_id sha) s).2 with
  | error m =>
    obtain ⟨ho, _⟩ := deploySteps_ops_err pk iid (generate_bundle_id sha) f s m hres
    rw [ho, hb1]
    exact List.mem_cons_of_mem _ hexp
  | ok sMid =>
    rcases deploySteps_ops_decomp pk iid (generate_bundle_id sha) f s sMid hres
      with hd | hd <;> rw [hd, hb1]
    · exact List.mem_append_left _
        (List.mem_append_left _ (List.mem_cons_of_mem _ hexp))
    · exact List.mem_append_left _ (List.mem_cons_of_mem _ hexp)

theorem listing_failure_tolerated_witness :
    Op.exportBundle (generate_bundle_id "abc1234") ∈
      (deploy (some ()) "myproj" "staging" "abc1234" noFaults emptyDSS).ops :=
  listing_failure_tolerated "myproj" "staging" "abc1234" noFaults emptyDSS rfl

lemma bindStep_mem_get (f : Faults) (pk iid bid : String) (s : DSSState) :
    Op.getDeployment (deploymentIdFor pk iid) ∈ (bindStep f pk iid bid s).1 := by
  rcases bindStep_ops_cases f pk iid bid s with h | h | h <;> rw [h] <;> simp

/-- C5: conflict swallow at the export step.  Assume the existence check found
nothing and the export call fails with message `m`.  If `m` is an
"already exists"-style message, that failure is swallowed: the publish call is
still attempted (it appears in the trace), and — provided publish itself does
not fail — reconciliation proceeds to the deployment-binding step (the
deployment fetch appears in the trace of the same run).  If `m` is any other
failure, it propagates: the call aborts with exactly that error and neither a
publish nor a deployment fetch is ever attempted. -/
theorem export_conflict_swallow (pk iid sha m : String) (f : Faults)
    (s : DSSState)
    (habs : bundleExistsCheck (generate_bundle_id sha) s = false)
    (hexp : f.exportFault = some m) :
    (hasSub "already exists" m = true →
      Op.publishBundle (generate_bundle_id sha) ∈
        (deploy (some ()) pk iid sha f s).ops ∧
      (f.publishFails = false →
        Op.getDeployment (deploymentIdFor pk iid) ∈
          (deploy (some ()) pk iid sha f s).ops)) ∧
    (hasSub "already exists" m = false →
      (deploy (some ()) pk iid sha f s).result = .error m ∧
      Op.publishBundle (generate_bundle_id sha) ∉
        (deploy (some ()) pk iid sha f s).ops ∧
      Op.getDeployment (deploymentIdFor pk iid) ∉
        (deploy (some ()) pk iid sha f s).ops) := by
  have hexb : exportBundle f s (generate_bundle_id sha) = .error m := by
    unfold exportBundle
    rw [hexp]
  have hb1 := bundleStep_ops_of_check_false f pk (generate_bundle_id sha) s habs
  have hb2 : (bundleStep f pk (generate_bundle_id sha) s).2 =
      (exportPublish f (generate_bundle_id sha) s).2 := by
    unfold bundleStep
    rw [habs]
    rfl
  constructor
  · intro hsubs
    have hops1 : (exportPublish f (generate_bundle_id sha) s).1 =
        [Op.exportBundle (generate_bundle_id sha),
         Op.publishBundle (generate_bundle_id sha)] := by
      unfold exportPublish
      rw [hexb]
      dsimp only
      rw [if_pos hsubs]
      split <;> rfl
    constructor
    · rw [deploy_ops_eq]
      cases hres : (bundleStep f pk (generate_bundle_id sha) s).2 with
      | error mm =>
        obtain ⟨ho, _⟩ :=
          deploySteps_ops_err pk iid (generate_bundle_id sha) f s mm hres
        rw [ho, hb1, hops1]
        simp
      | ok sMid =>
        rcases deploySteps_ops_decomp pk iid (generate_bundle_id sha) f s sMid hres
          with hd | hd <;> rw [hd, hb1, hops1] <;> simp
    · intro hpf
      have hpub : (exportPublish f (generate_bundle_id sha) s).2 =
          .ok (afterPublish (generate_bundle_id sha) s) := by
        unfold exportPublish
        rw [hexb]
        dsimp only
        rw [if_pos hsubs]
        unfold publishBundle
        rw [hpf]
        rfl
      have hres : (bundleStep f pk (generate_bundle_id sha) s).2 =
          .ok (afterPublish (generate_bundle_id sha) s) := by
        rw [hb2, hpub]
      rw [deploy_ops_eq]
      rcases deploySteps_ops_decomp pk iid (generate_bundle_id sha) f s
        (afterPublish (generate_bundle_id sha) s) hres with hd | hd <;> rw [hd]
      · exact List.mem_append_left _
          (List.mem_append_right _ (bindStep_mem_get f pk iid _ _))
      · exact List.mem_append_right _ (bindStep_mem_get f pk iid _ _)
  · intro hsubs
    have hep2 : exportPublish f (generate_bundle_id sha) s =
        ([Op.exportBundle (generate_bundle_id sha)], .error m) := by
      unfold exportPublish
      rw [hexb]
      dsimp only
      rw [if_neg (by simp [hsubs])]
    have hres : (bundleStep f pk (generate_bundle_id sha) s).2 = .error m := by
      rw [hb2, hep2]
    obtain ⟨ho, hr⟩ := deploySteps_ops_err pk iid (generate_bundle_id sha) f s m hres
    refine ⟨?_, ?_, ?_⟩
    · rw [deploy_result_eq, hr]
    · rw [deploy_ops_eq, ho, hb1, hep2]
      simp
    · rw [deploy_ops_eq, ho, hb1, hep2]
      simp

theorem export_conflict_swallow_witness :
    (hasSub "already exists" "bundle bundle_abc1234 already exists" = true →
      Op.publishBundle (generate_bundle_id "abc1234") ∈
        (deploy (some ()) "myproj" "staging" "abc1234" conflictFault emptyDSS).ops ∧
      (conflictFault.publishFails = false →
        Op.getDeployment (deploymentIdFor "myproj" "staging") ∈
          (deploy (some ()) "myproj" "staging" "abc1234" conflictFault emptyDSS).ops)) ∧
    (hasSub "already exists" "bundle bundle_abc1234 already exists" = false →
      (deploy (some ()) "myproj" "staging" "abc1234" conflictFault
          emptyDSS).result = .error "bundle bundle_abc1234 already exists" ∧
      Op.publishBundle (generate_bundle_id "abc1234") ∉
        (deploy (some ()) "myproj" "staging" "abc1234" conflictFault emptyDSS).ops ∧
      Op.getDeployment (deploymentIdFor "myproj" "staging") ∉
        (deploy (some ()) "myproj" "staging" "abc1234" conflictFault emptyDSS).ops) :=
  export_conflict_swallow "myproj" "staging" "abc1234"
    "bundle bundle_abc1234 already exists" conflictFault emptyDSS rfl rfl

/-- C4 counterexample: the claim says that when the deployment lookup
succeeds, `createDeployment` is never called in that run.  In the code the
bare `except` wraps the whole fetch-and-update block, so when the lookup
succeeds but the settings save raises, control falls into the `except` branch
and `createDeployment` is called anyway: here the lookup succeeds (first
conjunct) yet the run's trace contains exactly one `createDeployment` call
(second conjunct). -/
theorem create_vs_update_cex :
    getDeployment updateFaultState (deploymentIdFor "myproj" "staging") =
      .ok ⟨"deploy_myproj_staging", "myproj", "staging", "bundle_old"⟩ ∧
    (deploy (some ()) "myproj" "staging" "abc1234" saveFault
      updateFaultState).ops.countP isCreateOp = 1 :=
  ⟨rfl, rfl⟩

/-- C4 amended: create-vs-update branching for a reconcile call whose bundle
step succeeds with remote state `sMid`.  If the deployment lookup fails (no
deployment with the identifier exists), `createDeployment` is called exactly
once, with that identifier, the target infra and the computed bundle.  If the
lookup succeeds and the settings save also succeeds, the bound bundle is set
and saved and `createDeployment` is never called; the save-succeeds proviso is
forced by the code's bare `except` around the whole fetch-and-update block,
which routes a failed save into `createDeployment` as well. -/
theorem create_vs_update_branch (pk iid sha : String) (f : Faults)
    (s sMid : DSSState)
    (hb : (bundleStep f pk (generate_bundle_id sha) s).2 = .ok sMid) :
    ((∀ d ∈ sMid.deployments, d.deploymentId ≠ deploymentIdFor pk iid) →
      (deploy (some ()) pk iid sha f s).ops.countP isCreateOp = 1 ∧
      Op.createDeployment (deploymentIdFor pk iid) pk iid
        (generate_bundle_id sha) ∈ (deploy (some ()) pk iid sha f s).ops) ∧
    ((∃ d ∈ sMid.deployments, d.deploymentId = deploymentIdFor pk iid) →
      f.saveFails = false →
      (deploy (some ()) pk iid sha f s).ops.countP isCreateOp = 0 ∧
      Op.saveSettings (deploymentIdFor pk iid) (generate_bundle_id sha) ∈
        (deploy (some ()) pk iid sha f s).ops) := by
  constructor
  · intro hno
    have hfindnone : sMid.deployments.find?
        (fun d => d.deploymentId == deploymentIdFor pk iid) = none :=
      List.find?_eq_none.mpr (fun d hd => by simp [hno d hd])
    have hgd : getDeployment sMid (deploymentIdFor pk iid) =
        .error ("deployment " ++ deploymentIdFor pk iid ++ " not found") := by
      unfold getDeployment
      rw [hfindnone]
    have hbind1 : (bindStep f pk iid (generate_bundle_id sha) sMid).1 =
        [Op.getDeployment (deploymentIdFor pk iid),
         Op.createDeployment (deploymentIdFor pk iid) pk iid
           (generate_bundle_id sha)] := by
      unfold bindStep
      rw [hgd]
    constructor
    · rw [deploy_ops_eq]
      rcases deploySteps_ops_decomp pk iid (generate_bundle_id sha) f s sMid hb
        with hd | hd <;> rw [hd, hbind1] <;>
        simp only [List.countP_append, countP_create_bundleStep] <;> rfl
    · rw [deploy_ops_eq]
      rcases deploySteps_ops_decomp pk iid (generate_bundle_id sha) f s sMid hb
        with hd | hd <;> rw [hd, hbind1]
      · exact List.mem_append_left _ (List.mem_append_right _ (by simp))
      · exact List.mem_append_right _ (by simp)
  · rintro ⟨d0, hd0, hd0id⟩ hsf
    have hget : ∃ d1, getDeployment sMid (deploymentIdFor pk iid) = .ok d1 := by
      unfold getDeployment
      cases hf : sMid.deployments.find?
          (fun d => d.deploymentId == deploymentIdFor pk iid) with
      | some d1 => exact ⟨d1, rfl⟩
      | none =>
        have := List.find?_eq_none.mp hf d0 hd0
        simp [hd0id] at this
    obtain ⟨d1, hget⟩ := hget
    have hsave : saveSettings f sMid (deploymentIdFor pk iid)
        (generate_bundle_id sha) =
        .ok { sMid with deployments := sMid.deployments.map (updBundle (deploymentIdFor pk iid) (generate_bundle_id sha)) } := by
      unfold saveSettings
      rw [if_neg (by simp [hsf])]
    have hbind1 : (bindStep f pk iid (generate_bundle_id sha) sMid).1 =
        [Op.getDeployment (deploymentIdFor pk iid),
         Op.saveSettings (deploymentIdFor pk iid) (generate_bundle_id sha)] := by
      unfold bindStep
      rw [hget, hsave]
    constructor
    · rw [deploy_ops_eq]
      rcases deploySteps_ops_decomp pk iid (generate_bundle_id sha) f s sMid hb
        with hd | hd <;> rw [hd, hbind1] <;>
        simp only [List.countP_append, countP_create_bundleStep] <;> rfl
    · rw [deploy_ops_eq]
      rcases deploySteps_ops_decomp pk iid (generate_bundle_id sha) f s sMid hb
        with hd | hd <;> rw [hd, hbind1]
      · exact List.mem_append_left _ (List.mem_append_right _ (by simp))
      · exact List.mem_append_right _ (by simp)

theorem create_vs_update_branch_witness :
    ((∀ d ∈ exampleStateOne.deployments,
        d.deploymentId ≠ deploymentIdFor "myproj" "staging") →
      (deploy (some ()) "myproj" "staging" "abc1234" noFaults
        exampleStateOne).ops.countP isCreateOp = 1 ∧
      Op.createDeployment (deploymentIdFor "myproj" "staging") "myproj"
        "staging" (generate_bundle_id "abc1234") ∈
        (deploy (some ()) "myproj" "staging" "abc1234" noFaults
          exampleStateOne).ops) ∧
    ((∃ d ∈ exampleStateOne.deployments,
        d.deploymentId = deploymentIdFor "myproj" "staging") →
      noFaults.saveFails = false →
      (deploy (some ()) "myproj" "staging" "abc1234" noFaults
        exampleStateOne).ops.countP isCreateOp = 0 ∧
      Op.saveSettings (deploymentIdFor "myproj" "staging")
        (generate_bundle_id "abc1234") ∈
        (deploy (some ()) "myproj" "staging" "abc1234" noFaults
          exampleStateOne).ops) :=
  create_vs_update_branch "myproj" "staging" "abc1234" noFaults
    exampleStateOne exampleStateOne rfl

lemma mainRun_calls (c : Option Unit) (pk : String) (rto : Bool)
    (sha1 sha2 : String) (f1 f2 : Faults) (st pp : Bool) (s0 : DSSState) :
    (mainRun c pk rto sha1 sha2 f1 f2 st pp s0).calls =
      (mainBody c pk rto sha1 sha2 f1 f2 st pp s0).1 := by
  unfold mainRun
  split
  next cs u heq => rw [heq]
  next cs m heq => rw [heq]

lemma mainBody_calls_cases (c : Option Unit) (pk : String) (rto : Bool)
    (sha1 sha2 : String) (f1 f2 : Faults) (st pp : Bool) (s0 : DSSState) :
    (mainBody c pk rto sha1 sha2 f1 f2 st pp s0).1 =
      [("staging", deploy c pk "staging" sha1 f1 s0)] ∨
    (∃ s1, (deploy c pk "staging" sha1 f1 s0).result = Except.ok s1 ∧
      (mainBody c pk rto sha1 sha2 f1 f2 st pp s0).1 =
        [("staging", deploy c pk "staging" sha1 f1 s0),
         ("prod", deploy c pk "prod" sha2 f2 s1)]) := by
  unfold mainBody
  split
  next m h1 => exact Or.inl rfl
  next s1 h1 =>
    split
    · exact Or.inl rfl
    · split
      · exact Or.inl rfl
      · split
        next m h2 => exact Or.inr ⟨s1, h1, rfl⟩
        next s2 h2 =>
          split
          · exact Or.inr ⟨s1, h1, rfl⟩
          · exact Or.inr ⟨s1, h1, rfl⟩

lemma mainBody_calls_single (c : Option Unit) (pk : String) (rto : Bool)
    (sha1 sha2 : String) (f1 f2 : Faults) (st pp : Bool) (s0 : DSSState)
    (h : rto = true ∨ st = false) :
    (mainBody c pk rto sha1 sha2 f1 f2 st pp s0).1 =
      [("staging", deploy c pk "staging" sha1 f1 s0)] := by
  unfold mainBody
  split
  next m h1 => rfl
  next s1 h1 =>
    rcases h with h | h
    · subst h
      split
      · rfl
      · split
        · rfl
        next hcontra => exact absurd rfl hcontra
    · subst h
      split
      · rfl
      next hcontra => exact absurd rfl hcontra

lemma mainBody_ok_conditions (c : Option Unit) (pk : String) (rto : Bool)
    (sha1 sha2 : String) (f1 f2 : Faults) (st pp : Bool) (s0 : DSSState)
    (u : Unit) (h : (mainBody c pk rto sha1 sha2 f1 f2 st pp s0).2 = .ok u) :
    st = true ∧ rto = false ∧ pp = true := by
  unfold mainBody at h
  split at h
  · exact absurd h (by simp)
  next s1 h1 =>
    split at h
    · exact absurd h (by simp)
    next hstg =>
      have hst : st = true := by simpa using hstg
      split at h
      next hrto => exact absurd h (by simp)
      next hrto =>
        have hr : rto = false := by simpa using hrto
        split at h
        next m h2 => exact absurd h (by simp)
        next s2 h2 =>
          split at h
          next hpp => exact ⟨hst, hr, hpp⟩
          next hpp => exact absurd h (by simp)

/-- C3 counterexample: the claim says every full promotion run reuses for
production exactly the bundle identifier computed for staging.  But `deploy`
calls `get_git_sha()` itself on every invocation, so the identity is
re-derived between the stages.  Here is a full promotion run (it exits 0, so
both stages ran and verified) in which the two `get_git_sha()` readings differ
— e.g. the repository head moved, or `git` started failing and the fallback
sentinel was returned — and production receives a different artifact than
staging. -/
theorem identity_rederived_cex :
    (mainRun (some ()) "myproj" false "aaa1111" "bbb2222" noFaults noFaults
      true true emptyDSS).exitCode = 0 ∧
    ((mainRun (some ()) "myproj" false "aaa1111" "bbb2222" noFaults noFaults
        true true emptyDSS).calls.map (fun cl => (cl.1, cl.2.bundleId))) =
      [("staging", "bundle_aaa1111"), ("prod", "bundle_bbb2222")] ∧
    ("bundle_aaa1111" : String) ≠ "bundle_bbb2222" :=
  ⟨rfl, rfl, by decide⟩

/-- C3 amended: the orchestrator passes no identity between stages — each
`deploy` call re-derives the revision with its own `get_git_sha()` call; when
the two readings agree (the source head is unchanged across the run), every
reconcile call of the run, staging and production alike, uses the same bundle
identifier, namely `generate_bundle_id` of that reading. -/
theorem identity_same_when_head_stable (c : Option Unit) (pk : String)
    (rto : Bool) (sha : String) (f1 f2 : Faults) (st pp : Bool)
    (s0 : DSSState) :
    ∀ cl ∈ (mainRun c pk rto sha sha f1 f2 st pp s0).calls,
      cl.2.bundleId = generate_bundle_id sha := by
  intro cl hcl
  rw [mainRun_calls] at hcl
  rcases mainBody_calls_cases c pk rto sha sha f1 f2 st pp s0
    with h | ⟨s1, hok, h⟩ <;> rw [h] at hcl
  · rw [List.mem_singleton.mp hcl]
    exact deploy_bundleId c pk "staging" sha f1 s0
  · rcases List.mem_cons.mp hcl with hcl1 | hcl1
    · rw [hcl1]
      exact deploy_bundleId c pk "staging" sha f1 s0
    · rw [List.mem_singleton.mp hcl1]
      exact deploy_bundleId c pk "prod" sha f2 s1

theorem identity_same_when_head_stable_witness :
    ("staging", deploy (some ()) "myproj" "staging" "abc1234" noFaults emptyDSS) ∈
      (mainRun (some ()) "myproj" false "abc1234" "abc1234" noFaults noFaults
        true true emptyDSS).calls ∧
    ("staging",
      deploy (some ()) "myproj" "staging" "abc1234" noFaults emptyDSS).2.bundleId =
      generate_bundle_id "abc1234" := by
  have hm : ("staging",
      deploy (some ()) "myproj" "staging" "abc1234" noFaults emptyDSS) ∈
      (mainRun (some ()) "myproj" false "abc1234" "abc1234" noFaults noFaults
        true true emptyDSS).calls := List.mem_cons_self _ _
  exact ⟨hm, identity_same_when_head_stable (some ()) "myproj" false "abc1234"
    noFaults noFaults true true emptyDSS _ hm⟩

/-- C7: production is never reconciled without a passed staging verification.
In every run where the early-exit flag is set or the staging verification
fails, no `deploy` call targets the production infra identifier `"prod"`
(the call list degenerates to the single staging call); and whenever staging
verification fails the process exit status is non-zero. -/
theorem no_prod_without_staging_pass (c : Option Unit) (pk : String)
    (rto : Bool) (sha1 sha2 : String) (f1 f2 : Faults) (st pp : Bool)
    (s0 : DSSState) (h : rto = true ∨ st = false) :
    "prod" ∉ (mainRun c pk rto sha1 sha2 f1 f2 st pp s0).calls.map Prod.fst ∧
    (st = false → (mainRun c pk rto sha1 sha2 f1 f2 st pp s0).exitCode ≠ 0) := by
  constructor
  · rw [mainRun_calls, mainBody_calls_single c pk rto sha1 sha2 f1 f2 st pp s0 h]
    simp
  · intro hst h0
    unfold mainRun at h0
    split at h0
    next cs u heq =>
      have h2 : (mainBody c pk rto sha1 sha2 f1 f2 st pp s0).2 = .ok u := by
        rw [heq]
      obtain ⟨hst1, _, _⟩ :=
        mainBody_ok_conditions c pk rto sha1 sha2 f1 f2 st pp s0 u h2
      rw [hst] at hst1
      exact Bool.false_ne_true hst1
    next cs m heq => exact absurd h0 (by simp)

theorem no_prod_without_staging_pass_witness :
    "prod" ∉ (mainRun (some ()) "myproj" false "abc1234" "abc1234" noFaults
      noFaults false true emptyDSS).calls.map Prod.fst ∧
    (false = false → (mainRun (some ()) "myproj" false "abc1234" "abc1234"
      noFaults noFaults false true emptyDSS).exitCode ≠ 0) :=
  no_prod_without_staging_pass (some ()) "myproj" false "abc1234" "abc1234"
    noFaults noFaults false true emptyDSS (Or.inr rfl)
